import Mathlib

/-!
Verification of the executionbackup engine multiplexer (`src/main.rs`).

The development shallowly embeds the pure decision logic of the router:
the fcU/newPayload majority reducer (`fcu_majority`, `fcu_logic`), the
per-method response shaping of `do_engine_route` (fcU repackaging,
getPayload profitability pick, SYNCING fabrication via
`make_syncing_str`), the pool sweep `recheck`, and the fork selector
(`fork_name_at_epoch`, `timestamp_to_version`).

Network transport, JWT minting and the keccak/RLP block-hash verifier
live outside `src/` and are abstracted: fallible external operations
(serde deserialization, `verify_payload_block_hash`, `check_status`)
become function parameters, so every theorem below holds for all of
their possible outcomes.  JSON bodies are modelled structurally by the
`Json` type; `Body.errorString` models the raw (non JSON-RPC) strings
the code returns on verification failure.
-/

namespace ExecutionBackup

/-- Modelled from the spec: the Engine API payload status enumeration
(`types` crate, which is part of the repository but not under `src/`):
`status ∈ {VALID, INVALID, SYNCING, ACCEPTED, INVALID_BLOCK_HASH}`. -/
inductive PayloadStatusV1Status where
  | Valid
  | Invalid
  | Syncing
  | Accepted
  | InvalidBlockHash
deriving DecidableEq

/-- Modelled from the spec: `PayloadStatusV1 = { status, latestValidHash?,
validationError? }` with equality over all three fields, "so the reducer
counts identical triples".  Hashes and error messages are modelled as
strings. -/
structure PayloadStatusV1 where
  status : PayloadStatusV1Status
  latestValidHash : Option String
  validationError : Option String
deriving DecidableEq

/-- The reducer error type of `src/main.rs` (`FcuLogicError`). -/
inductive FcuLogicError where
  | NoResponses
  | NoMajority
  | OneNodeIsInvalid
deriving DecidableEq

/-- The status test performed twice inside `fcu_logic`:
`PayloadStatusV1Status::Invalid | PayloadStatusV1Status::InvalidBlockHash`. -/
def isInvalidStatus : PayloadStatusV1Status → Bool
  | PayloadStatusV1Status.Invalid => true
  | PayloadStatusV1Status.InvalidBlockHash => true
  | _ => false

/-- Occurrence count of one response in the response list; this is the
value stored in the `response_counts` hash map of `fcu_majority`
(`*response_counts.entry(response).or_insert(0) += 1`). -/
def countResp (response : PayloadStatusV1) : List PayloadStatusV1 → Nat
  | [] => 0
  | r :: rest => (if r = response then 1 else 0) + countResp response rest

/-- The scan of `fcu_majority` over the entries of `response_counts`:
starting from `(None, 0)` it keeps the response with the strictly
greatest count (`if count > max_count`).  The Rust `HashMap` iterates
its distinct keys in an unspecified order; the embedding fixes the
deterministic key order `results.dedup`.  Every theorem below that
depends on which key wins has a strict maximum, so it holds for any
iteration order. -/
def modalStep (results : List PayloadStatusV1) (acc : Option PayloadStatusV1 × Nat)
    (response : PayloadStatusV1) : Option PayloadStatusV1 × Nat :=
  if countResp response results > acc.2 then (some response, countResp response results)
  else acc

/-- The result of the scan: the modal response and its count.  See
`modalStep` for the loop body. -/
def modalScan (results : List PayloadStatusV1) : Option PayloadStatusV1 × Nat :=
  results.dedup.foldl (modalStep results) (none, 0)

/-- The threshold count `(total_responses as f32 * self.majority_percentage)
as usize` for the default `--fcu-majority` value `0.6`.  The `f32`
literal `0.6` denotes exactly `10066330 / 2^24`, so the exact rational
product is `total_responses * 10066330 / 2^24` and the `as usize` cast
truncates it.  For every list length used in the concrete theorems
below (`total_responses ≤ 4`) the product has at most 24 significant
bits, hence the `f32` multiplication is exact and agrees with this
natural-number formula. -/
def majority_count_06 (total_responses : Nat) : Nat :=
  total_responses * 10066330 / 16777216

/-- `NodeRouter::fcu_majority`, parametrised by the threshold
computation `majority_count` (the source computes it from the
configured `majority_percentage`; see `majority_count_06` for the
default).  Returns the modal response when its count reaches the
threshold, `none` otherwise. -/
def fcu_majority (majority_count : Nat → Nat) (results : List PayloadStatusV1) :
    Option PayloadStatusV1 :=
  let scan := modalScan results
  if scan.2 ≥ majority_count results.length then scan.1 else none

/-- `NodeRouter::fcu_logic`.  The second component records whether the
`tokio::spawn` that forwards the request to the syncing nodes was
reached: in the source it sits after the early returns for
`NoResponses`, `NoMajority`, the INVALID-majority success and the
`OneNodeIsInvalid` loop, immediately before the final `Ok(majority)`. -/
def fcu_logic (majority_count : Nat → Nat) (resps : List PayloadStatusV1) :
    Except FcuLogicError PayloadStatusV1 × Bool :=
  if resps.isEmpty then (Except.error FcuLogicError.NoResponses, false)
  else
    match fcu_majority majority_count resps with
    | none => (Except.error FcuLogicError.NoMajority, false)
    | some majority =>
      if isInvalidStatus majority.status then (Except.ok majority, false)
      else if resps.any (fun r => isInvalidStatus r.status) then
        (Except.error FcuLogicError.OneNodeIsInvalid, false)
      else (Except.ok majority, true)

/-! ### JSON bodies -/

/-- Structural model of `serde_json::Value`; objects keep the field
order of the `json!` literals in the source. -/
inductive Json where
  | null
  | bool (b : Bool)
  | num (n : Int)
  | str (s : String)
  | arr (elements : List Json)
  | obj (fields : List (String × Json))

/-- Field access in a JSON object. -/
def Json.lookup (key : String) : Json → Option Json
  | Json.obj fields => List.lookup key fields
  | _ => none

/-- An HTTP body: either a raw string (the `e.to_string()` returns of
`make_syncing_str`) or a JSON document. -/
inductive Body where
  | errorString (message : String)
  | json (value : Json)

/-- `make_response`: `{"jsonrpc":"2.0","id":id,"result":result}`. -/
def make_response (reqId : Nat) (result : Json) : Json :=
  Json.obj [("jsonrpc", Json.str "2.0"), ("id", Json.num reqId), ("result", result)]

/-- `make_error`: `{"jsonrpc":"2.0","id":id,"error":{"code":-32700,"message":error}}`. -/
def make_error (reqId : Nat) (error : String) : Json :=
  Json.obj [("jsonrpc", Json.str "2.0"), ("id", Json.num reqId),
    ("error", Json.obj [("code", Json.num (-32700)), ("message", Json.str error)])]

/-- The fabricated newPayload SYNCING body of `make_syncing_str`:
`{"result":{"latestValidHash":null,"status":"SYNCING","validationError":null},"id":id,"jsonrpc":"2.0"}`. -/
def newPayloadSyncingBody (reqId : Nat) : Json :=
  Json.obj [("result", Json.obj [("latestValidHash", Json.null),
      ("status", Json.str "SYNCING"), ("validationError", Json.null)]),
    ("id", Json.num reqId), ("jsonrpc", Json.str "2.0")]

/-- The fabricated forkchoiceUpdated SYNCING body of `make_syncing_str`.
Exactly as in the source, `"payloadId":null` is a top-level field next
to `"result"`, not a field of the `"result"` object:
`{"jsonrpc":"2.0","id":id,"result":{"payloadStatus":{"status":"SYNCING","latestValidHash":null,"validationError":null}},"payloadId":null}`. -/
def fcuSyncingBody (reqId : Nat) : Json :=
  Json.obj [("jsonrpc", Json.str "2.0"), ("id", Json.num reqId),
    ("result", Json.obj [("payloadStatus", Json.obj [("status", Json.str "SYNCING"),
      ("latestValidHash", Json.null), ("validationError", Json.null)])]),
    ("payloadId", Json.null)]

/-! ### Engine methods and `make_syncing_str` -/

/-- The engine method enumeration (the subset of `EngineMethod` that
`do_engine_route` distinguishes, plus the catch-all arm). -/
inductive EngineMethod where
  | engine_newPayloadV1
  | engine_newPayloadV2
  | engine_newPayloadV3
  | engine_forkchoiceUpdatedV1
  | engine_forkchoiceUpdatedV2
  | engine_forkchoiceUpdatedV3
  | engine_getPayloadV1
  | engine_getPayloadV2
  | engine_getPayloadV3
  | engine_getClientVersionV1
  | otherEngineMethod
deriving DecidableEq

/-- `types::ExecutionPayload`, a tagged union over the three payload
versions.  The payload fields are never inspected by the routing logic
verified here, so the variants carry abstract types. -/
inductive ExecutionPayload (EP1 EP2 EP3 : Type) where
  | V1 (payload : EP1)
  | V2 (payload : EP2)
  | V3 (payload : EP3)

/-- The inner `match method` of `make_syncing_str` that deserializes
`payload` as the version selected by the newPayload method.  The serde
deserializers are parameters (`serde_json::from_value` is external
code); the non-newPayload arm is unreachable in the source
(`unreachable!`) because the caller has already matched a newPayload
method. -/
def deserializeForNewPayload {EP1 EP2 EP3 : Type}
    (deserializeV1 : Json → Except String EP1)
    (deserializeV2 : Json → Except String EP2)
    (deserializeV3 : Json → Except String EP3)
    (method : EngineMethod) (payload : Json) :
    Except String (ExecutionPayload EP1 EP2 EP3) :=
  match method with
  | EngineMethod.engine_newPayloadV1 => (deserializeV1 payload).map ExecutionPayload.V1
  | EngineMethod.engine_newPayloadV2 => (deserializeV2 payload).map ExecutionPayload.V2
  | _ => (deserializeV3 payload).map ExecutionPayload.V3

/-- `make_syncing_str`.  `verify_payload_block_hash` lives in
`src/verify_hash.rs`, which is not part of the sources under `src/`;
it is abstracted as a parameter returning `Ok` or an error message, so
the theorems hold for every verifier behaviour.  On a deserialization
or verification error the source returns `e.to_string()` — a raw
string, not a JSON-RPC body. -/
def make_syncing_str {EP1 EP2 EP3 : Type}
    (deserializeV1 : Json → Except String EP1)
    (deserializeV2 : Json → Except String EP2)
    (deserializeV3 : Json → Except String EP3)
    (verify_payload_block_hash :
      ExecutionPayload EP1 EP2 EP3 → Option String → Except String Unit)
    (reqId : Nat) (payload : Json) (method : EngineMethod)
    (parent_beacon_block_root : Option String) : Body :=
  match method with
  | EngineMethod.engine_newPayloadV1 | EngineMethod.engine_newPayloadV2
  | EngineMethod.engine_newPayloadV3 =>
    match deserializeForNewPayload deserializeV1 deserializeV2 deserializeV3 method payload with
    | Except.error e => Body.errorString e
    | Except.ok execution_payload =>
      match verify_payload_block_hash execution_payload parent_beacon_block_root with
      | Except.error e => Body.errorString e
      | Except.ok _ => Body.json (newPayloadSyncingBody reqId)
  | EngineMethod.engine_forkchoiceUpdatedV1 | EngineMethod.engine_forkchoiceUpdatedV2
  | EngineMethod.engine_forkchoiceUpdatedV3 =>
    Body.json (fcuSyncingBody reqId)
  | _ => Body.errorString "Called make_syncing_str with a non fcu or newpayload request"

/-! ### Engine routes (`do_engine_route`) -/

/-- Modelled from the spec: serde serialization of a `PayloadStatusV1`
status value (`types` crate). -/
def statusString : PayloadStatusV1Status → String
  | PayloadStatusV1Status.Valid => "VALID"
  | PayloadStatusV1Status.Invalid => "INVALID"
  | PayloadStatusV1Status.Syncing => "SYNCING"
  | PayloadStatusV1Status.Accepted => "ACCEPTED"
  | PayloadStatusV1Status.InvalidBlockHash => "INVALID_BLOCK_HASH"

/-- An optional string serialized as JSON (`null` or a string). -/
def jsonOfOptionString : Option String → Json
  | none => Json.null
  | some s => Json.str s

/-- Modelled from the spec: serde serialization of `PayloadStatusV1`
(`types` crate, Engine API field names). -/
def payloadStatusJson (ps : PayloadStatusV1) : Json :=
  Json.obj [("status", Json.str (statusString ps.status)),
    ("latestValidHash", jsonOfOptionString ps.latestValidHash),
    ("validationError", jsonOfOptionString ps.validationError)]

/-- `types::forkchoiceUpdatedResponse`: the per-node fcU response,
split by the router into the status and the optional payload id. -/
structure forkchoiceUpdatedResponse where
  payloadStatus : PayloadStatusV1
  payloadId : Option String
deriving DecidableEq

/-- Serde serialization of `forkchoiceUpdatedResponse` as rebuilt by the
router for the success path (`json!(forkchoiceUpdatedResponse { .. })`);
the struct fields are named `payloadStatus` and `payloadId` in the
source. -/
def forkchoiceUpdatedResponseJson (resp : forkchoiceUpdatedResponse) : Json :=
  Json.obj [("payloadStatus", payloadStatusJson resp.payloadStatus),
    ("payloadId", jsonOfOptionString resp.payloadId)]

/-- The `payload_id` accumulation loop of the forkchoiceUpdated arm of
`do_engine_route`: `if let Some(inner) = resp.payloadId { payload_id = Some(inner) }`
overwrites the accumulator with every non-null payload id met. -/
def accumulatePayloadId (resps : List forkchoiceUpdatedResponse) : Option String :=
  resps.foldl
    (fun payload_id resp =>
      match resp.payloadId with
      | some inner_payload_id => some inner_payload_id
      | none => payload_id)
    none

/-- The `engine_forkchoiceUpdatedV1|V2|V3` arm of `do_engine_route`,
from the point where the per-node responses have been collected: split
off the statuses and the payload id, run `fcu_logic`, and either
repackage `{ payloadStatus, payloadId }` via `make_response` or fall
back to `make_syncing_str` (which for fcU methods never verifies
anything).  The HTTP status is 200 on both paths. -/
def fcu_route {EP1 EP2 EP3 : Type}
    (deserializeV1 : Json → Except String EP1)
    (deserializeV2 : Json → Except String EP2)
    (deserializeV3 : Json → Except String EP3)
    (verify_payload_block_hash :
      ExecutionPayload EP1 EP2 EP3 → Option String → Except String Unit)
    (majority_count : Nat → Nat) (reqId : Nat) (payload : Json) (method : EngineMethod)
    (resps : List forkchoiceUpdatedResponse) : Body × Nat :=
  match (fcu_logic majority_count (resps.map (fun resp => resp.payloadStatus))).1 with
  | Except.error _ =>
    (make_syncing_str deserializeV1 deserializeV2 deserializeV3 verify_payload_block_hash
      reqId payload method none, 200)
  | Except.ok resp =>
    (Body.json (make_response reqId
      (forkchoiceUpdatedResponseJson ⟨resp, accumulatePayloadId resps⟩)), 200)

/-- The `engine_newPayloadV1|V2` (and, with the parent beacon block root
taken from the deserialized request, `engine_newPayloadV3`) arm of
`do_engine_route`, from the point where the per-node `PayloadStatusV1`
responses have been collected: run `fcu_logic`; on success return the
majority status, on any reducer error fabricate the SYNCING reply via
`make_syncing_str` over `request.params[0]`.  The HTTP status is 200 on
both paths. -/
def newPayload_route {EP1 EP2 EP3 : Type}
    (deserializeV1 : Json → Except String EP1)
    (deserializeV2 : Json → Except String EP2)
    (deserializeV3 : Json → Except String EP3)
    (verify_payload_block_hash :
      ExecutionPayload EP1 EP2 EP3 → Option String → Except String Unit)
    (majority_count : Nat → Nat) (reqId : Nat) (payload : Json) (method : EngineMethod)
    (parent_beacon_block_root : Option String)
    (resps : List PayloadStatusV1) : Body × Nat :=
  match (fcu_logic majority_count resps).1 with
  | Except.error _ =>
    (make_syncing_str deserializeV1 deserializeV2 deserializeV3 verify_payload_block_hash
      reqId payload method parent_beacon_block_root, 200)
  | Except.ok resp => (Body.json (make_response reqId (payloadStatusJson resp)), 200)

/-- The `resps.iter().max_by(|a, b| a.block_value.cmp(&b.block_value))`
selection of the getPayload arms.  Rust `max_by` keeps the later
element when the comparison is not `Greater`, hence returns the last
maximal element. -/
def maxByStep {α : Type} (block_value : α → Nat) (most_profitable : Option α)
    (resp : α) : Option α :=
  match most_profitable with
  | none => some resp
  | some m => if block_value m ≤ block_value resp then some resp else some m

/-- The fold realising `iter().max_by(..)`; see `maxByStep`. -/
def max_by_block_value {α : Type} (block_value : α → Nat) (resps : List α) : Option α :=
  resps.foldl (maxByStep block_value) none

/-- The `engine_getPayloadV2` arm of `do_engine_route` from the point
where the responses have been collected (the `engine_getPayloadV3` arm
is textually identical up to the response type, which is abstract
here): pick the most profitable payload by `block_value`, or return a
JSON-RPC error body with HTTP 200 when there are no responses.
`block_value` is a `U256` in the source, modelled as `Nat` with the
same total order; `toJson` stands for serde serialization of the
response. -/
def getPayload_route {α : Type} (toJson : α → Json) (block_value : α → Nat)
    (reqId : Nat) (resps : List α) (noBlocksMessage : String) : Body × Nat :=
  match max_by_block_value block_value resps with
  | some most_profitable_payload =>
    (Body.json (make_response reqId (toJson most_profitable_payload)), 200)
  | none => (Body.json (make_error reqId noBlocksMessage), 200)

/-! ### Node pool (`NodeRouter::recheck`) -/

/-- `types::SyncingStatus`, the three health classes of a node. -/
inductive SyncingStatus where
  | Synced
  | OnlineAndSyncing
  | Offline
deriving DecidableEq

/-- `types::NodeHealth`: classification plus round-trip time in
microseconds. -/
structure NodeHealth where
  status : SyncingStatus
  resp_time : Nat
deriving DecidableEq

/-- The membership lists and primary pointer rebuilt by `recheck`.
`primary_node` is `none` exactly when the configured node list is
empty (where the source `nodes[0]` would panic; the CLI guarantees at
least one node). -/
structure PoolState (N : Type) where
  alive_nodes : List N
  alive_but_syncing_nodes : List N
  dead_nodes : List N
  primary_node : Option N

/-- The comparator of `new_alive_nodes.sort_by(|a, b| a.0.cmp(&b.0))`:
ascending response time on `(resp_time, node)` pairs. -/
def pairLe {N : Type} (a b : Nat × N) : Prop := a.1 ≤ b.1

instance {N : Type} : DecidableRel (@pairLe N) := fun a b => Nat.decLe a.1 b.1

instance {N : Type} : IsTotal (Nat × N) pairLe := ⟨fun a b => Nat.le_total a.1 b.1⟩

instance {N : Type} : IsTrans (Nat × N) pairLe := ⟨fun _ _ _ => Nat.le_trans⟩

/-- The probe results gathered by `recheck`: each configured node paired
with its `check_status` outcome.  `check_status` abstracts the
concurrent `node.check_status()` probes (probe errors are already
mapped to `SyncingStatus::Offline` with `resp_time 0` by the source
before classification, so a total function loses no behaviour). -/
def recheckResults {N : Type} (nodes : List N) (check_status : N → NodeHealth) :
    List (NodeHealth × N) :=
  nodes.map (fun node => (check_status node, node))

/-- The `new_alive_nodes` vector of `recheck`: `(resp_time, node)` pairs
of the nodes whose status is `Synced`, in probe order, before sorting. -/
def newAliveNodes {N : Type} (results : List (NodeHealth × N)) : List (Nat × N) :=
  (results.filter (fun r => r.1.status == SyncingStatus.Synced)).map
    (fun r => (r.1.resp_time, r.2))

/-- The `new_alive_but_syncing_nodes` vector of `recheck`. -/
def newSyncingNodes {N : Type} (results : List (NodeHealth × N)) : List N :=
  (results.filter (fun r => r.1.status == SyncingStatus.OnlineAndSyncing)).map
    (fun r => r.2)

/-- The `new_dead_nodes` vector of `recheck` (the `else` branch of the
classification). -/
def newDeadNodes {N : Type} (results : List (NodeHealth × N)) : List N :=
  (results.filter (fun r =>
    !(r.1.status == SyncingStatus.Synced) &&
      !(r.1.status == SyncingStatus.OnlineAndSyncing))).map (fun r => r.2)

/-- The sorted `new_alive_nodes` (`sort_by(|a, b| a.0.cmp(&b.0))`). -/
def sortedAlive {N : Type} (results : List (NodeHealth × N)) : List (Nat × N) :=
  List.insertionSort pairLe (newAliveNodes results)

/-- `NodeRouter::recheck`: rebuild the three membership lists from the
probe results (partitioned by the `if / else if / else` over the
reported status), sort the alive list by ascending response time
(`sort_by` is a stable sort and `List.insertionSort` is the same stable
sort, so the resulting list is identical), and set the primary to the
first alive node, else the first syncing node, else the first dead
node, else the first configured node. -/
def recheck {N : Type} (nodes : List N) (check_status : N → NodeHealth) : PoolState N :=
  ⟨(sortedAlive (recheckResults nodes check_status)).map (fun p => p.2),
   newSyncingNodes (recheckResults nodes check_status),
   newDeadNodes (recheckResults nodes check_status),
   match (sortedAlive (recheckResults nodes check_status)).head? with
   | some first => some first.2
   | none =>
     match (newSyncingNodes (recheckResults nodes check_status)).head? with
     | some node => some node
     | none =>
       match (newDeadNodes (recheckResults nodes check_status)).head? with
       | some node => some node
       | none => nodes.head?⟩

/-! ### Fork selector -/

/-- `types::ForkName` with the chronological order Merge < Shanghai < Cancun. -/
inductive ForkName where
  | Merge
  | Shanghai
  | Cancun
deriving DecidableEq

/-- Chronological rank of a fork, used to state monotonicity. -/
def ForkName.toNat : ForkName → Nat
  | ForkName.Merge => 0
  | ForkName.Shanghai => 1
  | ForkName.Cancun => 2

/-- `types::ForkConfig`: optional activation epochs for Shanghai and
Cancun. -/
structure ForkConfig where
  shanghai_fork_epoch : Option Nat
  cancun_fork_epoch : Option Nat

/-- One `if let Some(fork_epoch) = .. { if epoch >= fork_epoch { .. } }`
guard of `fork_name_at_epoch`. -/
def epochReached (cfg_epoch : Option Nat) (epoch : Nat) : Bool :=
  match cfg_epoch with
  | some fork_epoch => decide (epoch ≥ fork_epoch)
  | none => false

/-- `fork_name_at_epoch` from `src/main.rs`. -/
def fork_name_at_epoch (epoch : Nat) (fork_config : ForkConfig) : ForkName :=
  if epochReached fork_config.cancun_fork_epoch epoch then ForkName.Cancun
  else if epochReached fork_config.shanghai_fork_epoch epoch then ForkName.Shanghai
  else ForkName.Merge

/-- `u64::checked_sub`. -/
def checked_sub (a b : Nat) : Option Nat := if b ≤ a then some (a - b) else none

/-- `u64::checked_div`. -/
def checked_div (a b : Nat) : Option Nat := if b = 0 then none else some (a / b)

/-- `timestamp_to_version` from `src/main.rs`: slot and epoch from a
payload timestamp (genesis 1606824000, 12 seconds per slot, 32 slots
per epoch), then `fork_name_at_epoch`. -/
def timestamp_to_version (timestamp : Nat) (fork_config : ForkConfig) : Option ForkName := do
  let diff ← checked_sub timestamp 1606824000
  let slot ← checked_div diff 12
  let epoch ← checked_div slot 32
  return fork_name_at_epoch epoch fork_config

/-- The forks the spec declares available at an epoch: Merge always,
Shanghai and Cancun when configured with an activation epoch at most
`epoch`.  (Spec-side definition, for the refinement statement of C9.) -/
def configuredForks (epoch : Nat) (fork_config : ForkConfig) : List ForkName :=
  [ForkName.Merge]
    ++ (match fork_config.shanghai_fork_epoch with
        | some e => if e ≤ epoch then [ForkName.Shanghai] else []
        | none => [])
    ++ (match fork_config.cancun_fork_epoch with
        | some e => if e ≤ epoch then [ForkName.Cancun] else []
        | none => [])

/-- Spec-side selector: the highest fork among `configuredForks`
(written from the spec sentence "return the highest fork whose
configured epoch ≤ epoch", to be compared with `fork_name_at_epoch`). -/
def highestConfiguredFork (epoch : Nat) (fork_config : ForkConfig) : ForkName :=
  (configuredForks epoch fork_config).foldl
    (fun best f => if best.toNat ≤ f.toNat then f else best) ForkName.Merge

/-! ### Concrete values used by counterexamples and witnesses -/

/-- A VALID response as in scenarios S1 and S2 of the spec. -/
def psValid : PayloadStatusV1 := ⟨PayloadStatusV1Status.Valid, some "0xabc", none⟩

/-- A SYNCING response. -/
def psSyncing : PayloadStatusV1 := ⟨PayloadStatusV1Status.Syncing, none, none⟩

/-- An ACCEPTED response. -/
def psAccepted : PayloadStatusV1 := ⟨PayloadStatusV1Status.Accepted, none, none⟩

/-- An INVALID response as in scenario S2 of the spec. -/
def psInvalid : PayloadStatusV1 := ⟨PayloadStatusV1Status.Invalid, some "0xdef", none⟩

/-- A trivial deserializer over the unit payload type, for closed
instantiations. -/
def deserializeUnit (_ : Json) : Except String Unit := Except.ok ()

/-- A verifier that always succeeds, for closed instantiations. -/
def verifyUnit (_ : ExecutionPayload Unit Unit Unit) (_ : Option String) :
    Except String Unit := Except.ok ()

/-- Serialization of the unit getPayload response, for closed
instantiations. -/
def gpToJson (r : Unit × Nat) : Json := Json.num r.2

/-- The getPayload responses of the profitability example: block values
10, 40 and 25. -/
def gpExample : List (Unit × Nat) := [((), 10), ((), 40), ((), 25)]

/-- Modelled from the spec: the mainnet preset of `ForkConfig`
(Shanghai epoch 194048, Cancun epoch 269568; `types` crate). -/
def mainnetForkConfig : ForkConfig := ⟨some 194048, some 269568⟩

/-- An fcU response with payload id `0x01` (first in scenario S4). -/
def fcuRespA : forkchoiceUpdatedResponse := ⟨psValid, some "0x01"⟩

/-- An fcU response with payload id `0x02`. -/
def fcuRespB : forkchoiceUpdatedResponse := ⟨psValid, some "0x02"⟩

/-- First-some choice on optional strings, used to characterise the
`payload_id` accumulation loop. -/
def optOr (o fallback : Option String) : Option String :=
  match o with
  | some x => some x
  | none => fallback

/-- Nodes used by the recheck witness. -/
def demoNodes : List Nat := [10, 11, 12, 13]

/-- Health probe results used by the recheck witness: two synced nodes
(response times 50 and 20), one syncing, one offline. -/
def demoCheck : Nat → NodeHealth
  | 10 => ⟨SyncingStatus.Synced, 50⟩
  | 11 => ⟨SyncingStatus.OnlineAndSyncing, 10⟩
  | 12 => ⟨SyncingStatus.Synced, 20⟩
  | _ => ⟨SyncingStatus.Offline, 0⟩

/-! ## Helper lemmas about the majority scan -/

theorem countResp_pos {r : PayloadStatusV1} :
    ∀ {results : List PayloadStatusV1}, r ∈ results → 1 ≤ countResp r results := by
  intro results h
  induction results with
  | nil => cases h
  | cons x xs ih =>
    by_cases hx : x = r
    · simp [countResp, hx]
    · have h2 : r ∈ xs := by
        rcases List.mem_cons.mp h with h1 | h1
        · exact absurd h1.symm hx
        · exact h1
      have h3 := ih h2
      simp [countResp, hx]
      omega

theorem modalFold_snd_le (results : List PayloadStatusV1) :
    ∀ (l : List PayloadStatusV1) (acc : Option PayloadStatusV1 × Nat),
      acc.2 ≤ (l.foldl (modalStep results) acc).2
  | [], _ => le_refl _
  | x :: xs, acc => by
    rw [List.foldl_cons]
    have hstep : acc.2 ≤ (modalStep results acc x).2 := by
      by_cases h : countResp x results > acc.2 <;> simp [modalStep, h] <;> omega
    exact le_trans hstep (modalFold_snd_le results xs _)

theorem modalFold_ge_count (results : List PayloadStatusV1) (r : PayloadStatusV1) :
    ∀ (l : List PayloadStatusV1) (acc : Option PayloadStatusV1 × Nat), r ∈ l →
      countResp r results ≤ (l.foldl (modalStep results) acc).2
  | [], _, hr => absurd hr (List.not_mem_nil r)
  | x :: xs, acc, hr => by
    rw [List.foldl_cons]
    rcases List.mem_cons.mp hr with h1 | h2
    · subst h1
      have hstep : countResp r results ≤ (modalStep results acc r).2 := by
        by_cases h : countResp r results > acc.2 <;> simp [modalStep, h] <;> omega
      exact le_trans hstep (modalFold_snd_le results xs _)
    · exact modalFold_ge_count results r xs (modalStep results acc x) h2

theorem modalFold_fst_some (results : List PayloadStatusV1) :
    ∀ (l : List PayloadStatusV1) (acc : Option PayloadStatusV1 × Nat),
      (0 < acc.2 → acc.1 ≠ none) → 0 < (l.foldl (modalStep results) acc).2 →
      (l.foldl (modalStep results) acc).1 ≠ none
  | [], _, hinv, hpos => hinv hpos
  | x :: xs, acc, hinv, hpos => by
    rw [List.foldl_cons] at hpos ⊢
    refine modalFold_fst_some results xs _ ?_ hpos
    intro hpos2
    by_cases hc : countResp x results > acc.2
    · simp [modalStep, hc]
    · simp [modalStep, hc] at hpos2 ⊢
      exact hinv hpos2

theorem modalScan_fst_some {results : List PayloadStatusV1} (hne : results ≠ []) :
    ∃ m, (modalScan results).1 = some m := by
  obtain ⟨x, xs, rfl⟩ := List.exists_cons_of_ne_nil hne
  have hx : x ∈ x :: xs := List.mem_cons_self x xs
  have hxd : x ∈ (x :: xs).dedup := List.mem_dedup.mpr hx
  have h1 : 1 ≤ countResp x (x :: xs) := countResp_pos hx
  have h2 : countResp x (x :: xs) ≤ (modalScan (x :: xs)).2 :=
    modalFold_ge_count (x :: xs) x ((x :: xs).dedup) (none, 0) hxd
  have h3 : (modalScan (x :: xs)).1 ≠ none :=
    modalFold_fst_some (x :: xs) ((x :: xs).dedup) (none, 0) (by simp)
      (by show 0 < (modalScan (x :: xs)).2; omega)
  exact Option.ne_none_iff_exists'.mp h3

theorem fcu_majority_eq_none_iff (mc : Nat → Nat) {results : List PayloadStatusV1}
    (hne : results ≠ []) :
    fcu_majority mc results = none ↔ (modalScan results).2 < mc results.length := by
  obtain ⟨m, hm⟩ := modalScan_fst_some hne
  unfold fcu_majority
  by_cases h : (modalScan results).2 ≥ mc results.length
  · rw [if_pos h, hm]
    constructor
    · intro hx
      exact absurd hx (Option.some_ne_none m)
    · intro hx
      exact absurd hx (Nat.not_lt.mpr h)
  · rw [if_neg h]
    constructor
    · intro _
      exact Nat.not_le.mp h
    · intro _
      rfl

theorem majority_count_06_one : majority_count_06 1 = 0 := by
  simp [majority_count_06]

theorem majority_count_06_two : majority_count_06 2 = 1 := by
  simp [majority_count_06]

theorem majority_count_06_three : majority_count_06 3 = 1 := by
  simp [majority_count_06]

theorem majority_count_06_four : majority_count_06 4 = 2 := by
  simp [majority_count_06]

theorem fcu_majority_single (a : PayloadStatusV1) :
    fcu_majority majority_count_06 [a] = some a := by
  have hd : ([a] : List PayloadStatusV1).dedup = [a] := by simp
  unfold fcu_majority modalScan
  rw [hd, show ([a] : List PayloadStatusV1).length = 1 from rfl, majority_count_06_one]
  simp [modalStep, countResp]

theorem fcu_majority_pair_same (x y : PayloadStatusV1) (hxy : x ≠ y) :
    fcu_majority majority_count_06 [x, x, y] = some x := by
  have hyx : y ≠ x := fun h => hxy h.symm
  have hd : ([x, x, y] : List PayloadStatusV1).dedup = [x, y] := by
    rw [List.dedup_cons_of_mem (by simp), List.dedup_eq_self.mpr (by simp [hxy])]
  unfold fcu_majority modalScan
  rw [hd, show ([x, x, y] : List PayloadStatusV1).length = 3 from rfl,
    majority_count_06_three]
  simp [modalStep, countResp, hxy, hyx]

theorem fcu_majority_distinct3 (a b c : PayloadStatusV1)
    (hab : a ≠ b) (hac : a ≠ c) (hbc : b ≠ c) :
    fcu_majority majority_count_06 [a, b, c] = some a := by
  have hba : b ≠ a := fun h => hab h.symm
  have hca : c ≠ a := fun h => hac h.symm
  have hcb : c ≠ b := fun h => hbc h.symm
  have hd : ([a, b, c] : List PayloadStatusV1).dedup = [a, b, c] :=
    List.dedup_eq_self.mpr (by simp [hab, hac, hbc])
  unfold fcu_majority modalScan
  rw [hd, show ([a, b, c] : List PayloadStatusV1).length = 3 from rfl,
    majority_count_06_three]
  simp [modalStep, countResp, hab, hac, hbc, hba, hca, hcb]

theorem fcu_majority_double4 (a b c : PayloadStatusV1)
    (hab : a ≠ b) (hac : a ≠ c) (hbc : b ≠ c) :
    fcu_majority majority_count_06 [a, a, b, c] = some a := by
  have hba : b ≠ a := fun h => hab h.symm
  have hca : c ≠ a := fun h => hac h.symm
  have hcb : c ≠ b := fun h => hbc h.symm
  have hd : ([a, a, b, c] : List PayloadStatusV1).dedup = [a, b, c] := by
    rw [List.dedup_cons_of_mem (by simp),
      List.dedup_eq_self.mpr (by simp [hab, hac, hbc])]
  unfold fcu_majority modalScan
  rw [hd, show ([a, a, b, c] : List PayloadStatusV1).length = 4 from rfl,
    majority_count_06_four]
  simp [modalStep, countResp, hab, hac, hbc, hba, hca, hcb]

theorem fcu_majority_pair (a b : PayloadStatusV1) (hab : a ≠ b) :
    ∃ m, fcu_majority majority_count_06 [a, b] = some m ∧ m ∈ [a, b] := by
  have hba : b ≠ a := fun h => hab h.symm
  have hd : ([a, b] : List PayloadStatusV1).dedup = [a, b] :=
    List.dedup_eq_self.mpr (by simp [hab])
  refine ⟨a, ?_, by simp⟩
  unfold fcu_majority modalScan
  rw [hd, show ([a, b] : List PayloadStatusV1).length = 2 from rfl,
    majority_count_06_two]
  simp [modalStep, countResp, hab, hba]

/-! ## C1: reducer safety -/

/-- C1 counterexample: the claim asserts that whenever the modal element
does not give an INVALID majority, the presence of any INVALID response
makes the reducer return `OneNodeIsInvalid`.  On the four-element list
`[VALID, SYNCING, ACCEPTED, INVALID]` (threshold `⌊4·0.6⌋ = 2`, maximal
count 1) the reducer instead fails earlier with `NoMajority`, even
though an INVALID response is present. -/
theorem C1_counterexample :
    (fcu_logic majority_count_06 [psValid, psSyncing, psAccepted, psInvalid]).1
      = Except.error FcuLogicError.NoMajority ∧
    (fcu_logic majority_count_06 [psValid, psSyncing, psAccepted, psInvalid]).1
      ≠ Except.error FcuLogicError.OneNodeIsInvalid ∧
    psInvalid ∈ [psValid, psSyncing, psAccepted, psInvalid] ∧
    isInvalidStatus psInvalid.status = true := by
  refine ⟨rfl, ?_, by decide, rfl⟩
  intro h
  have hx := (show (fcu_logic majority_count_06
      [psValid, psSyncing, psAccepted, psInvalid]).1
      = Except.error FcuLogicError.NoMajority from rfl).symm.trans h
  simp at hx

/-- C1 (amended): for every non-empty response list and every threshold
function, `fcu_logic` (i) returns the modal element when `fcu_majority`
produces one whose status is INVALID or INVALID_BLOCK_HASH, (ii)
returns `OneNodeIsInvalid` when `fcu_majority` produces a non-INVALID
majority but some response is INVALID or INVALID_BLOCK_HASH, and (iii)
returns `NoMajority` — not `OneNodeIsInvalid` — when the modal count
misses the threshold, even if an INVALID response is present. -/
theorem C1_reducer_safety (mc : Nat → Nat) (resps : List PayloadStatusV1)
    (hne : resps ≠ []) :
    (∀ m, fcu_majority mc resps = some m → isInvalidStatus m.status = true →
      (fcu_logic mc resps).1 = Except.ok m) ∧
    (∀ m, fcu_majority mc resps = some m → isInvalidStatus m.status = false →
      (∃ r ∈ resps, isInvalidStatus r.status = true) →
      (fcu_logic mc resps).1 = Except.error FcuLogicError.OneNodeIsInvalid) ∧
    (fcu_majority mc resps = none →
      (fcu_logic mc resps).1 = Except.error FcuLogicError.NoMajority) := by
  have hempty : resps.isEmpty = false := by
    cases resps with
    | nil => exact absurd rfl hne
    | cons x xs => rfl
  refine ⟨?_, ?_, ?_⟩
  · intro m hm hinv
    simp [fcu_logic, hempty, hm, hinv]
  · intro m hm hninv hex
    have hany : resps.any (fun r => isInvalidStatus r.status) = true := by
      rw [List.any_eq_true]
      obtain ⟨r, hr, h⟩ := hex
      exact ⟨r, hr, h⟩
    simp [fcu_logic, hempty, hm, hninv, hany]
  · intro hnone
    simp [fcu_logic, hempty, hnone]

/-- C1 witness: scenario S3 — majority INVALID is returned verbatim —
and scenario S2 — VALID majority with one INVALID response gives
`OneNodeIsInvalid`. -/
theorem C1_reducer_safety_witness :
    (fcu_logic majority_count_06 [psInvalid, psInvalid, psValid]).1
      = Except.ok psInvalid ∧
    (fcu_logic majority_count_06 [psValid, psValid, psInvalid]).1
      = Except.error FcuLogicError.OneNodeIsInvalid :=
  ⟨(C1_reducer_safety majority_count_06 [psInvalid, psInvalid, psValid]
      (by decide)).1 psInvalid (by decide) rfl,
   (C1_reducer_safety majority_count_06 [psValid, psValid, psInvalid]
      (by decide)).2.1 psValid (by decide) rfl ⟨psInvalid, by decide, rfl⟩⟩

/-! ## C2: threshold on three responses -/

/-- C2 counterexample: with the default threshold 0.6 and three pairwise
distinct responses the reducer does NOT return `NoMajority` (as the
claim asserts): the maximal count 1 already reaches `⌊3·0.6⌋ = 1`, so
the modal element is returned. -/
theorem C2_counterexample :
    fcu_majority majority_count_06 [psValid, psSyncing, psAccepted] = some psValid ∧
    (fcu_logic majority_count_06 [psValid, psSyncing, psAccepted]).1
      ≠ Except.error FcuLogicError.NoMajority ∧
    psValid ≠ psSyncing ∧ psValid ≠ psAccepted ∧ psSyncing ≠ psAccepted := by
  refine ⟨by decide, ?_, by decide, by decide, by decide⟩
  intro h
  have hx := (show (fcu_logic majority_count_06
      [psValid, psSyncing, psAccepted]).1 = Except.ok psValid from rfl).symm.trans h
  simp at hx

/-- C2 (amended): with threshold 0.6, a three-element list of pairwise
distinct responses yields SOME element as the majority (which one
depends on the unspecified hash-map iteration order; in this embedding
it is the first), and `[a, a, b]` yields `a`. -/
theorem C2_majority_three (a b c : PayloadStatusV1)
    (hab : a ≠ b) (hac : a ≠ c) (hbc : b ≠ c) :
    (∃ m, fcu_majority majority_count_06 [a, b, c] = some m ∧ m ∈ [a, b, c]) ∧
    (∀ x y : PayloadStatusV1, x ≠ y →
      fcu_majority majority_count_06 [x, x, y] = some x) :=
  ⟨⟨a, fcu_majority_distinct3 a b c hab hac hbc, by simp⟩,
   fun x y hxy => fcu_majority_pair_same x y hxy⟩

/-- C2 witness: the amended claim at the concrete distinct triple
`VALID, SYNCING, ACCEPTED`. -/
theorem C2_majority_three_witness :
    (∃ m, fcu_majority majority_count_06 [psValid, psSyncing, psAccepted] = some m ∧
      m ∈ [psValid, psSyncing, psAccepted]) ∧
    (∀ x y : PayloadStatusV1, x ≠ y →
      fcu_majority majority_count_06 [x, x, y] = some x) :=
  C2_majority_three psValid psSyncing psAccepted (by decide) (by decide) (by decide)

/-! ## C7: threshold arithmetic -/

/-- C7: the reducer compares the maximal count against
`(total_responses as f32 * 0.6) as usize`, i.e. `⌊total · 0.6⌋`: the
thresholds for 1, 2, 3, 4 responses are 0, 1, 1, 2; `fcu_majority`
returns `none` exactly when the maximal count is below the threshold;
two agreeing responses win among three and among four; one of two
suffices; and a singleton response is always returned. -/
theorem C7_threshold :
    (majority_count_06 1 = 0 ∧ majority_count_06 2 = 1 ∧
      majority_count_06 3 = 1 ∧ majority_count_06 4 = 2) ∧
    (∀ (mc : Nat → Nat) (results : List PayloadStatusV1), results ≠ [] →
      (fcu_majority mc results = none ↔ (modalScan results).2 < mc results.length)) ∧
    (∀ a b : PayloadStatusV1, a ≠ b →
      fcu_majority majority_count_06 [a, a, b] = some a) ∧
    (∀ a b c : PayloadStatusV1, a ≠ b → a ≠ c → b ≠ c →
      fcu_majority majority_count_06 [a, a, b, c] = some a) ∧
    (∀ a b : PayloadStatusV1, a ≠ b →
      ∃ m, fcu_majority majority_count_06 [a, b] = some m ∧ m ∈ [a, b]) ∧
    (∀ a : PayloadStatusV1, fcu_majority majority_count_06 [a] = some a) :=
  ⟨⟨majority_count_06_one, majority_count_06_two,
      majority_count_06_three, majority_count_06_four⟩,
   fun mc _ hne => fcu_majority_eq_none_iff mc hne,
   fcu_majority_pair_same,
   fcu_majority_double4,
   fcu_majority_pair,
   fcu_majority_single⟩

/-- C7 witness: the threshold behaviour at concrete response lists of
length 1, 2, 3 and 4. -/
theorem C7_threshold_witness :
    fcu_majority majority_count_06 [psValid] = some psValid ∧
    (∃ m, fcu_majority majority_count_06 [psValid, psSyncing] = some m ∧
      m ∈ [psValid, psSyncing]) ∧
    fcu_majority majority_count_06 [psValid, psValid, psSyncing] = some psValid ∧
    fcu_majority majority_count_06 [psValid, psValid, psSyncing, psAccepted]
      = some psValid ∧
    (fcu_majority majority_count_06 [psValid, psSyncing, psAccepted, psInvalid] = none ↔
      (modalScan [psValid, psSyncing, psAccepted, psInvalid]).2 <
        majority_count_06 [psValid, psSyncing, psAccepted, psInvalid].length) :=
  ⟨C7_threshold.2.2.2.2.2 psValid,
   C7_threshold.2.2.2.2.1 psValid psSyncing (by decide),
   C7_threshold.2.2.1 psValid psSyncing (by decide),
   C7_threshold.2.2.2.1 psValid psSyncing psAccepted
     (by decide) (by decide) (by decide),
   C7_threshold.2.1 majority_count_06 [psValid, psSyncing, psAccepted, psInvalid]
     (by decide)⟩

/-! ## C10: syncing-node backfill -/

/-- C10 counterexample: in scenario S2 (`VALID, VALID, INVALID`) the
reducer returns `OneNodeIsInvalid` through the early return INSIDE the
invalid-scan loop, which sits before the `tokio::spawn` that forwards
the request to the syncing nodes — so, contrary to the claim, no
backfill is scheduled in S2. -/
theorem C10_counterexample :
    (fcu_logic majority_count_06 [psValid, psValid, psInvalid]).1
      = Except.error FcuLogicError.OneNodeIsInvalid ∧
    (fcu_logic majority_count_06 [psValid, psValid, psInvalid]).2 = false :=
  ⟨rfl, rfl⟩

/-- C10 (amended): the backfill to the syncing nodes is scheduled
exactly when `fcu_logic` reaches its final success path, i.e. returns a
majority whose status is not INVALID/INVALID_BLOCK_HASH.  Reducer
errors (including S2) and even an INVALID-majority success return
before the spawn. -/
theorem C10_backfill (mc : Nat → Nat) (resps : List PayloadStatusV1) :
    (fcu_logic mc resps).2 = true ↔
      ∃ m, (fcu_logic mc resps).1 = Except.ok m ∧ isInvalidStatus m.status = false := by
  unfold fcu_logic
  cases hempty : resps.isEmpty with
  | true => simp
  | false =>
    simp only [Bool.false_eq_true, if_false]
    cases hmaj : fcu_majority mc resps with
    | none => simp
    | some majority =>
      cases hinv : isInvalidStatus majority.status with
      | true => simp [hinv]
      | false =>
        cases hany : resps.any (fun r => isInvalidStatus r.status) with
        | true => simp [hinv]
        | false => simp [hinv]

/-! ## C3: SYNCING fabrication verifies the payload hash -/

/-- C3: on every reducer failure of a `newPayload*` route, the reply is
produced by `make_syncing_str`: if deserialization of the supplied
payload fails the body is the error string; if deserialization succeeds
but block-hash verification fails the body is the error string of the
verifier; only when verification succeeds is the SYNCING JSON-RPC result
(status SYNCING, latestValidHash null) returned.  For the
`forkchoiceUpdated*` methods `make_syncing_str` returns the SYNCING
envelope directly — the result is the same constant for every
deserializer and verifier, i.e. nothing is verified. -/
theorem C3_syncing_verification {EP1 EP2 EP3 : Type}
    (deserializeV1 : Json → Except String EP1)
    (deserializeV2 : Json → Except String EP2)
    (deserializeV3 : Json → Except String EP3)
    (verify : ExecutionPayload EP1 EP2 EP3 → Option String → Except String Unit)
    (mc : Nat → Nat) (reqId : Nat) (payload : Json) (pbbr : Option String)
    (resps : List PayloadStatusV1) (err : FcuLogicError)
    (hfail : (fcu_logic mc resps).1 = Except.error err) :
    (∀ method, method ∈ [EngineMethod.engine_newPayloadV1,
        EngineMethod.engine_newPayloadV2, EngineMethod.engine_newPayloadV3] →
      (∀ e, deserializeForNewPayload deserializeV1 deserializeV2 deserializeV3
          method payload = Except.error e →
        newPayload_route deserializeV1 deserializeV2 deserializeV3 verify
          mc reqId payload method pbbr resps = (Body.errorString e, 200)) ∧
      (∀ p e, deserializeForNewPayload deserializeV1 deserializeV2 deserializeV3
          method payload = Except.ok p →
        verify p pbbr = Except.error e →
        newPayload_route deserializeV1 deserializeV2 deserializeV3 verify
          mc reqId payload method pbbr resps = (Body.errorString e, 200)) ∧
      (∀ p, deserializeForNewPayload deserializeV1 deserializeV2 deserializeV3
          method payload = Except.ok p →
        verify p pbbr = Except.ok () →
        newPayload_route deserializeV1 deserializeV2 deserializeV3 verify
          mc reqId payload method pbbr resps
          = (Body.json (newPayloadSyncingBody reqId), 200))) ∧
    (∀ method, method ∈ [EngineMethod.engine_forkchoiceUpdatedV1,
        EngineMethod.engine_forkchoiceUpdatedV2,
        EngineMethod.engine_forkchoiceUpdatedV3] →
      make_syncing_str deserializeV1 deserializeV2 deserializeV3 verify
        reqId payload method pbbr = Body.json (fcuSyncingBody reqId)) := by
  constructor
  · intro method hm
    have hcases : method = EngineMethod.engine_newPayloadV1 ∨
        method = EngineMethod.engine_newPayloadV2 ∨
        method = EngineMethod.engine_newPayloadV3 := by
      simpa using hm
    refine ⟨?_, ?_, ?_⟩
    · intro e hdes
      rcases hcases with h | h | h <;> subst h <;>
        simp [newPayload_route, hfail, make_syncing_str, hdes]
    · intro p e hdes hver
      rcases hcases with h | h | h <;> subst h <;>
        simp [newPayload_route, hfail, make_syncing_str, hdes, hver]
    · intro p hdes hver
      rcases hcases with h | h | h <;> subst h <;>
        simp [newPayload_route, hfail, make_syncing_str, hdes, hver]
  · intro method hm
    have hcases : method = EngineMethod.engine_forkchoiceUpdatedV1 ∨
        method = EngineMethod.engine_forkchoiceUpdatedV2 ∨
        method = EngineMethod.engine_forkchoiceUpdatedV3 := by
      simpa using hm
    rcases hcases with h | h | h <;> subst h <;> rfl

/-- C3 witness: zero responses (`NoResponses`) for `engine_newPayloadV2`
with a deserializer and verifier that succeed yields the SYNCING body,
and the fcU envelope is fabricated unconditionally. -/
theorem C3_syncing_verification_witness :
    newPayload_route deserializeUnit deserializeUnit deserializeUnit verifyUnit
      majority_count_06 7 Json.null EngineMethod.engine_newPayloadV2 none []
      = (Body.json (newPayloadSyncingBody 7), 200) ∧
    make_syncing_str deserializeUnit deserializeUnit deserializeUnit verifyUnit
      7 Json.null EngineMethod.engine_forkchoiceUpdatedV1 none
      = Body.json (fcuSyncingBody 7) :=
  ⟨((C3_syncing_verification deserializeUnit deserializeUnit deserializeUnit
      verifyUnit majority_count_06 7 Json.null none [] FcuLogicError.NoResponses
      rfl).1 EngineMethod.engine_newPayloadV2 (by decide)).2.2 (ExecutionPayload.V2 ())
      rfl rfl,
   (C3_syncing_verification deserializeUnit deserializeUnit deserializeUnit
      verifyUnit majority_count_06 7 Json.null none [] FcuLogicError.NoResponses
      rfl).2 EngineMethod.engine_forkchoiceUpdatedV1 (by decide)⟩

/-! ## C4: fcU payloadId preservation -/

theorem optOr_none (o : Option String) : optOr o none = o := by
  cases o <;> rfl

theorem foldl_payloadId (l : List (Option String)) :
    ∀ init : Option String,
      l.foldl (fun payload_id o =>
        match o with
        | some inner_payload_id => some inner_payload_id
        | none => payload_id) init
      = optOr ((l.filterMap (fun o => o)).getLast?) init := by
  induction l with
  | nil => intro init; simp [optOr]
  | cons o t ih =>
    intro init
    rw [List.foldl_cons, ih]
    cases o with
    | none => simp [optOr]
    | some pid =>
      cases hfm : t.filterMap (fun o => o) with
      | nil => simp [hfm, optOr]
      | cons x xs =>
        have hsome : ∃ last, (x :: xs).getLast? = some last := by
          cases hxx : (x :: xs).getLast? with
          | none => exact absurd (List.getLast?_eq_none_iff.mp hxx) (by simp)
          | some last => exact ⟨last, rfl⟩
        obtain ⟨last, hlast⟩ := hsome
        simp [hfm, optOr, List.getLast?_cons_cons, hlast]

theorem accumulatePayloadId_eq (resps : List forkchoiceUpdatedResponse) :
    accumulatePayloadId resps
      = ((resps.map (fun r => r.payloadId)).filterMap (fun o => o)).getLast? := by
  have h : accumulatePayloadId resps
      = (resps.map (fun r => r.payloadId)).foldl (fun payload_id o =>
          match o with
          | some inner_payload_id => some inner_payload_id
          | none => payload_id) none := by
    rw [List.foldl_map]
    rfl
  rw [h, foldl_payloadId, optOr_none]

/-- C4 counterexample: two fcU responses with distinct non-null payload
ids `0x01` and `0x02` (in that order).  The accumulation loop overwrites
`payload_id` on every non-null element, so the repackaged result carries
the LAST non-null id `0x02`, not the first (`0x01`) as the claim
states. -/
theorem C4_counterexample :
    accumulatePayloadId [fcuRespA, fcuRespB] = some "0x02" ∧
    fcu_route deserializeUnit deserializeUnit deserializeUnit verifyUnit
      majority_count_06 1 Json.null EngineMethod.engine_forkchoiceUpdatedV2
      [fcuRespA, fcuRespB]
      = (Body.json (make_response 1
          (forkchoiceUpdatedResponseJson ⟨psValid, some "0x02"⟩)), 200) ∧
    ("0x02" : String) ≠ "0x01" :=
  ⟨rfl, rfl, by decide⟩

/-- C4 (amended): whenever the reduction of the collected statuses
succeeds with majority `m`, the fcU route returns HTTP 200 with result
`{ payloadStatus: m, payloadId: p }` where `p` is the LAST non-null
`payloadId` among the collected responses (null if none is non-null). -/
theorem C4_fcu_repackage {EP1 EP2 EP3 : Type}
    (deserializeV1 : Json → Except String EP1)
    (deserializeV2 : Json → Except String EP2)
    (deserializeV3 : Json → Except String EP3)
    (verify : ExecutionPayload EP1 EP2 EP3 → Option String → Except String Unit)
    (mc : Nat → Nat) (reqId : Nat) (payload : Json) (method : EngineMethod)
    (resps : List forkchoiceUpdatedResponse) (m : PayloadStatusV1)
    (hok : (fcu_logic mc (resps.map (fun r => r.payloadStatus))).1 = Except.ok m) :
    fcu_route deserializeV1 deserializeV2 deserializeV3 verify
      mc reqId payload method resps
      = (Body.json (make_response reqId (forkchoiceUpdatedResponseJson
          ⟨m, ((resps.map (fun r => r.payloadId)).filterMap (fun o => o)).getLast?⟩)),
         200) := by
  unfold fcu_route
  rw [accumulatePayloadId_eq, hok]

/-- C4 witness: scenario S4 — responses `(VALID, "0x01")` and
`(VALID, null)` repackage to payload id `0x01`. -/
theorem C4_fcu_repackage_witness :
    fcu_route deserializeUnit deserializeUnit deserializeUnit verifyUnit
      majority_count_06 3 Json.null EngineMethod.engine_forkchoiceUpdatedV2
      [fcuRespA, ⟨psValid, none⟩]
      = (Body.json (make_response 3 (forkchoiceUpdatedResponseJson
          ⟨psValid, (([fcuRespA, ⟨psValid, none⟩].map
              (fun r => r.payloadId)).filterMap (fun o => o)).getLast?⟩)), 200) :=
  C4_fcu_repackage deserializeUnit deserializeUnit deserializeUnit verifyUnit
    majority_count_06 3 Json.null EngineMethod.engine_forkchoiceUpdatedV2
    [fcuRespA, ⟨psValid, none⟩] psValid rfl

/-! ## C5: fcU SYNCING envelope on reducer failure -/

/-- C5: on a reducer failure (here `NoResponses`) the fcU route answers
HTTP 200 with the fabricated body; that body carries
`result.payloadStatus.status = "SYNCING"`, but — contrary to the claim,
which places `payloadId: null` inside `result` — the `result` object
has no `payloadId` field at all: `"payloadId": null` sits at the top
level of the body, next to `result` (the success path, by contrast,
serialises `payloadId` inside `result`). -/
theorem C5_syncing_envelope :
    fcu_route deserializeUnit deserializeUnit deserializeUnit verifyUnit
      majority_count_06 1 Json.null EngineMethod.engine_forkchoiceUpdatedV1 []
      = (Body.json (fcuSyncingBody 1), 200) ∧
    Json.lookup "result" (fcuSyncingBody 1)
      = some (Json.obj [("payloadStatus", Json.obj [("status", Json.str "SYNCING"),
          ("latestValidHash", Json.null), ("validationError", Json.null)])]) ∧
    (Json.lookup "result" (fcuSyncingBody 1)).bind (Json.lookup "payloadId") = none ∧
    Json.lookup "payloadId" (fcuSyncingBody 1) = some Json.null :=
  ⟨rfl, rfl, rfl, rfl⟩

/-! ## C8: getPayload profitability pick -/

theorem maxByStep_fold {α : Type} (block_value : α → Nat) :
    ∀ (l : List α) (m : α),
      ∃ p, l.foldl (maxByStep block_value) (some m) = some p ∧
        (p = m ∨ p ∈ l) ∧ block_value m ≤ block_value p ∧
        ∀ q ∈ l, block_value q ≤ block_value p
  | [], m => ⟨m, rfl, Or.inl rfl, le_refl _, by simp⟩
  | r :: t, m => by
    rw [List.foldl_cons]
    by_cases h : block_value m ≤ block_value r
    · obtain ⟨p, hp, hmem, hle, hall⟩ := maxByStep_fold block_value t r
      have hstep : maxByStep block_value (some m) r = some r := by
        simp [maxByStep, h]
      refine ⟨p, by rw [hstep]; exact hp, ?_, le_trans h hle, ?_⟩
      · rcases hmem with h1 | h1
        · exact Or.inr (by simp [h1])
        · exact Or.inr (List.mem_cons_of_mem r h1)
      · intro q hq
        rcases List.mem_cons.mp hq with h1 | h1
        · subst h1; exact hle
        · exact hall q h1
    · obtain ⟨p, hp, hmem, hle, hall⟩ := maxByStep_fold block_value t m
      have hstep : maxByStep block_value (some m) r = some m := by
        simp [maxByStep, h]
      refine ⟨p, by rw [hstep]; exact hp, ?_, hle, ?_⟩
      · rcases hmem with h1 | h1
        · exact Or.inl h1
        · exact Or.inr (List.mem_cons_of_mem r h1)
      · intro q hq
        rcases List.mem_cons.mp hq with h1 | h1
        · subst h1
          exact le_trans (Nat.le_of_lt (Nat.lt_of_not_le h)) hle
        · exact hall q h1

/-- C8: the getPayload broadcast reducer.  With no decoded responses the
route answers HTTP 200 with the `make_error` JSON-RPC body; with at
least one response it answers HTTP 200 with `make_response` over some
collected response whose `block_value` is maximal among all collected
responses. -/
theorem C8_profitability {α : Type} (toJson : α → Json) (block_value : α → Nat)
    (reqId : Nat) (noBlocksMessage : String) (resps : List α) :
    (resps = [] → getPayload_route toJson block_value reqId resps noBlocksMessage
      = (Body.json (make_error reqId noBlocksMessage), 200)) ∧
    (resps ≠ [] → ∃ p, p ∈ resps ∧ (∀ q ∈ resps, block_value q ≤ block_value p) ∧
      getPayload_route toJson block_value reqId resps noBlocksMessage
        = (Body.json (make_response reqId (toJson p)), 200)) := by
  constructor
  · intro h
    subst h
    rfl
  · intro hne
    obtain ⟨r, t, rfl⟩ := List.exists_cons_of_ne_nil hne
    obtain ⟨p, hp, hmem, hle, hall⟩ := maxByStep_fold block_value t r
    refine ⟨p, ?_, ?_, ?_⟩
    · rcases hmem with h1 | h1
      · simp [h1]
      · exact List.mem_cons_of_mem r h1
    · intro q hq
      rcases List.mem_cons.mp hq with h1 | h1
      · subst h1; exact hle
      · exact hall q h1
    · have hstep : maxByStep block_value none r = some r := rfl
      unfold getPayload_route max_by_block_value
      rw [List.foldl_cons, hstep, hp]

/-- C8 witness: block values `[10, 40, 25]` — the route returns a
response whose block value dominates all three (i.e. the one with
value 40). -/
theorem C8_profitability_witness :
    ∃ p, p ∈ gpExample ∧ (∀ q ∈ gpExample, q.2 ≤ p.2) ∧
      getPayload_route gpToJson (fun r => r.2) 9 gpExample
        "No blocks found in EL engine_getPayloadV2 responses"
        = (Body.json (make_response 9 (gpToJson p)), 200) :=
  (C8_profitability gpToJson (fun r => r.2) 9
    "No blocks found in EL engine_getPayloadV2 responses" gpExample).2 (by decide)

/-! ## C6: recheck partitions, sorts and selects the primary -/

theorem newAliveNodes_eq {N : Type} (nodes : List N) (check_status : N → NodeHealth) :
    newAliveNodes (recheckResults nodes check_status)
      = (nodes.filter (fun n => (check_status n).status == SyncingStatus.Synced)).map
          (fun n => ((check_status n).resp_time, n)) := by
  unfold newAliveNodes recheckResults
  rw [List.filter_map, List.map_map]
  rfl

theorem newSyncingNodes_eq {N : Type} (nodes : List N) (check_status : N → NodeHealth) :
    newSyncingNodes (recheckResults nodes check_status)
      = nodes.filter (fun n => (check_status n).status == SyncingStatus.OnlineAndSyncing) := by
  unfold newSyncingNodes recheckResults
  rw [List.filter_map, List.map_map]
  simp [Function.comp_def]

theorem newDeadNodes_eq {N : Type} (nodes : List N) (check_status : N → NodeHealth) :
    newDeadNodes (recheckResults nodes check_status)
      = nodes.filter (fun n => !((check_status n).status == SyncingStatus.Synced) &&
          !((check_status n).status == SyncingStatus.OnlineAndSyncing)) := by
  unfold newDeadNodes recheckResults
  rw [List.filter_map, List.map_map]
  simp [Function.comp_def]

theorem status_else_iff (s : SyncingStatus) :
    (!(s == SyncingStatus.Synced) && !(s == SyncingStatus.OnlineAndSyncing)) = true ↔
      s = SyncingStatus.Offline := by
  cases s <;> simp

theorem recheck_partition_filters {N : Type} (check_status : N → NodeHealth) :
    ∀ nodes : List N,
      (nodes.filter (fun n => (check_status n).status == SyncingStatus.Synced) ++
        (nodes.filter (fun n => (check_status n).status == SyncingStatus.OnlineAndSyncing) ++
          nodes.filter (fun n => !((check_status n).status == SyncingStatus.Synced) &&
            !((check_status n).status == SyncingStatus.OnlineAndSyncing)))).Perm nodes := by
  intro nodes
  induction nodes with
  | nil => simp
  | cons x xs ih =>
    cases hs : (check_status x).status with
    | Synced =>
      simp only [List.filter_cons, hs]
      simpa using ih.cons x
    | OnlineAndSyncing =>
      simp only [List.filter_cons, hs]
      simp only [show (SyncingStatus.OnlineAndSyncing == SyncingStatus.Synced) = false
          from rfl,
        show (SyncingStatus.OnlineAndSyncing == SyncingStatus.OnlineAndSyncing) = true
          from rfl]
      simp only [Bool.not_true, Bool.false_and, Bool.and_false]
      simp only [if_true, if_false, Bool.false_eq_true, List.cons_append]
      exact List.Perm.trans List.perm_middle (ih.cons x)
    | Offline =>
      simp only [List.filter_cons, hs]
      simp only [show (SyncingStatus.Offline == SyncingStatus.Synced) = false from rfl,
        show (SyncingStatus.Offline == SyncingStatus.OnlineAndSyncing) = false from rfl]
      simp only [Bool.not_false, Bool.true_and, if_true, if_false, Bool.false_eq_true]
      rw [← List.append_assoc]
      refine List.Perm.trans List.perm_middle ?_
      rw [List.append_assoc]
      exact ih.cons x

theorem newAliveNodes_map_snd {N : Type} (nodes : List N) (check_status : N → NodeHealth) :
    (newAliveNodes (recheckResults nodes check_status)).map (fun p => p.2)
      = nodes.filter (fun n => (check_status n).status == SyncingStatus.Synced) := by
  rw [newAliveNodes_eq, List.map_map]
  simp [Function.comp_def]

theorem alive_perm_filter {N : Type} (nodes : List N) (check_status : N → NodeHealth) :
    (recheck nodes check_status).alive_nodes.Perm
      (nodes.filter (fun n => (check_status n).status == SyncingStatus.Synced)) := by
  rw [← newAliveNodes_map_snd nodes check_status]
  exact (List.perm_insertionSort pairLe _).map _

theorem mem_newAliveNodes_fst {N : Type} (nodes : List N) (check_status : N → NodeHealth)
    {p : Nat × N} (hp : p ∈ newAliveNodes (recheckResults nodes check_status)) :
    p.1 = (check_status p.2).resp_time := by
  rw [newAliveNodes_eq] at hp
  obtain ⟨n, _, rfl⟩ := List.mem_map.mp hp
  rfl

theorem alive_sorted_resp_time {N : Type} (nodes : List N) (check_status : N → NodeHealth) :
    List.Pairwise (fun a b => (check_status a).resp_time ≤ (check_status b).resp_time)
      (recheck nodes check_status).alive_nodes := by
  have hs : List.Pairwise pairLe (sortedAlive (recheckResults nodes check_status)) :=
    List.sorted_insertionSort pairLe _
  have hinv : ∀ p ∈ sortedAlive (recheckResults nodes check_status),
      p.1 = (check_status p.2).resp_time := by
    intro p hp
    exact mem_newAliveNodes_fst nodes check_status
      ((List.perm_insertionSort pairLe _).mem_iff.mp hp)
  show List.Pairwise _
    ((sortedAlive (recheckResults nodes check_status)).map (fun p => p.2))
  rw [List.pairwise_map]
  refine hs.imp_of_mem ?_
  intro a b ha hb hr
  have h1 := hinv a ha
  have h2 := hinv b hb
  rw [← h1, ← h2]
  exact hr

theorem primary_spec {N : Type} (nodes : List N) (check_status : N → NodeHealth) :
    ((recheck nodes check_status).alive_nodes ≠ [] →
      (recheck nodes check_status).primary_node
        = (recheck nodes check_status).alive_nodes.head?) ∧
    ((recheck nodes check_status).alive_nodes = [] →
      (recheck nodes check_status).alive_but_syncing_nodes ≠ [] →
      (recheck nodes check_status).primary_node
        = (recheck nodes check_status).alive_but_syncing_nodes.head?) ∧
    ((recheck nodes check_status).alive_nodes = [] →
      (recheck nodes check_status).alive_but_syncing_nodes = [] →
      (recheck nodes check_status).dead_nodes ≠ [] →
      (recheck nodes check_status).primary_node
        = (recheck nodes check_status).dead_nodes.head?) ∧
    ((recheck nodes check_status).alive_nodes = [] →
      (recheck nodes check_status).alive_but_syncing_nodes = [] →
      (recheck nodes check_status).dead_nodes = [] →
      (recheck nodes check_status).primary_node = nodes.head?) := by
  unfold recheck
  dsimp only
  cases hs : sortedAlive (recheckResults nodes check_status) with
  | cons p ps => simp
  | nil =>
    cases hy : newSyncingNodes (recheckResults nodes check_status) with
    | cons s ss => simp
    | nil =>
      cases hd : newDeadNodes (recheckResults nodes check_status) with
      | cons d ds => simp
      | nil => simp

/-- C6: after `recheck`, (i) the three membership lists are a
permutation of the configured nodes, (ii) a node is alive / syncing /
dead exactly when its probe reported `Synced` / `OnlineAndSyncing` /
`Offline` (so the lists partition the checked nodes), (iii) the alive
list is sorted by ascending probe response time, and (iv) the primary
is the head of `alive`, else of `syncing`, else of `dead`, else the
first configured node. -/
theorem C6_recheck {N : Type} (nodes : List N) (check_status : N → NodeHealth) :
    ((recheck nodes check_status).alive_nodes ++
      ((recheck nodes check_status).alive_but_syncing_nodes ++
        (recheck nodes check_status).dead_nodes)).Perm nodes ∧
    (∀ n, n ∈ (recheck nodes check_status).alive_nodes ↔
      n ∈ nodes ∧ (check_status n).status = SyncingStatus.Synced) ∧
    (∀ n, n ∈ (recheck nodes check_status).alive_but_syncing_nodes ↔
      n ∈ nodes ∧ (check_status n).status = SyncingStatus.OnlineAndSyncing) ∧
    (∀ n, n ∈ (recheck nodes check_status).dead_nodes ↔
      n ∈ nodes ∧ (check_status n).status = SyncingStatus.Offline) ∧
    List.Pairwise (fun a b => (check_status a).resp_time ≤ (check_status b).resp_time)
      (recheck nodes check_status).alive_nodes ∧
    ((recheck nodes check_status).alive_nodes ≠ [] →
      (recheck nodes check_status).primary_node
        = (recheck nodes check_status).alive_nodes.head?) ∧
    ((recheck nodes check_status).alive_nodes = [] →
      (recheck nodes check_status).alive_but_syncing_nodes ≠ [] →
      (recheck nodes check_status).primary_node
        = (recheck nodes check_status).alive_but_syncing_nodes.head?) ∧
    ((recheck nodes check_status).alive_nodes = [] →
      (recheck nodes check_status).alive_but_syncing_nodes = [] →
      (recheck nodes check_status).dead_nodes ≠ [] →
      (recheck nodes check_status).primary_node
        = (recheck nodes check_status).dead_nodes.head?) ∧
    ((recheck nodes check_status).alive_nodes = [] →
      (recheck nodes check_status).alive_but_syncing_nodes = [] →
      (recheck nodes check_status).dead_nodes = [] →
      (recheck nodes check_status).primary_node = nodes.head?) := by
  have hsync : (recheck nodes check_status).alive_but_syncing_nodes
      = nodes.filter (fun n => (check_status n).status == SyncingStatus.OnlineAndSyncing) :=
    newSyncingNodes_eq nodes check_status
  have hdead : (recheck nodes check_status).dead_nodes
      = nodes.filter (fun n => !((check_status n).status == SyncingStatus.Synced) &&
          !((check_status n).status == SyncingStatus.OnlineAndSyncing)) :=
    newDeadNodes_eq nodes check_status
  refine ⟨?_, ?_, ?_, ?_, alive_sorted_resp_time nodes check_status,
    (primary_spec nodes check_status).1, (primary_spec nodes check_status).2.1,
    (primary_spec nodes check_status).2.2.1, (primary_spec nodes check_status).2.2.2⟩
  · refine List.Perm.trans
      ((alive_perm_filter nodes check_status).append ?_)
      (recheck_partition_filters check_status nodes)
    rw [hsync, hdead]
  · intro n
    rw [(alive_perm_filter nodes check_status).mem_iff, List.mem_filter]
    simp
  · intro n
    rw [hsync, List.mem_filter]
    simp
  · intro n
    rw [hdead, List.mem_filter, status_else_iff]

/-- C6 witness: four probed nodes (two synced with response times 50
and 20, one syncing, one offline) — the lists are a permutation of the
configured nodes and the primary is the head of the sorted alive
list. -/
theorem C6_recheck_witness :
    ((recheck demoNodes demoCheck).alive_nodes ++
      ((recheck demoNodes demoCheck).alive_but_syncing_nodes ++
        (recheck demoNodes demoCheck).dead_nodes)).Perm demoNodes ∧
    (recheck demoNodes demoCheck).primary_node
      = (recheck demoNodes demoCheck).alive_nodes.head? :=
  ⟨(C6_recheck demoNodes demoCheck).1,
   (C6_recheck demoNodes demoCheck).2.2.2.2.2.1 (by decide)⟩

/-! ## C9: fork selector -/

theorem epochReached_none (e : Nat) : epochReached none e = false := rfl

theorem epochReached_some (fe e : Nat) :
    epochReached (some fe) e = decide (e ≥ fe) := rfl

theorem epochReached_mono (cfg : Option Nat) {e1 e2 : Nat} (h : e1 ≤ e2)
    (h1 : epochReached cfg e1 = true) : epochReached cfg e2 = true := by
  cases cfg with
  | none => simp [epochReached] at h1
  | some fe =>
    simp [epochReached] at h1 ⊢
    omega

theorem fork_name_at_epoch_mono (fc : ForkConfig) {e1 e2 : Nat} (h : e1 ≤ e2) :
    (fork_name_at_epoch e1 fc).toNat ≤ (fork_name_at_epoch e2 fc).toNat := by
  unfold fork_name_at_epoch
  cases hc1 : epochReached fc.cancun_fork_epoch e1 with
  | true =>
    rw [epochReached_mono fc.cancun_fork_epoch h hc1]
    simp [hc1]
  | false =>
    cases hs1 : epochReached fc.shanghai_fork_epoch e1 with
    | false =>
      simp only [hc1, hs1, Bool.false_eq_true, if_false]
      exact Nat.zero_le _
    | true =>
      rw [epochReached_mono fc.shanghai_fork_epoch h hs1]
      simp only [hc1, Bool.false_eq_true, if_false, if_true]
      cases hc2 : epochReached fc.cancun_fork_epoch e2 with
      | true => simp [ForkName.toNat]
      | false => simp [ForkName.toNat]

theorem fork_name_eq_highest (e : Nat) (fc : ForkConfig) :
    fork_name_at_epoch e fc = highestConfiguredFork e fc := by
  unfold fork_name_at_epoch highestConfiguredFork configuredForks
  cases hcn : fc.cancun_fork_epoch with
  | none =>
    cases hsh : fc.shanghai_fork_epoch with
    | none => simp [epochReached_none, ForkName.toNat]
    | some se =>
      by_cases h : se ≤ e
      · simp [epochReached_some, epochReached_none, h, ForkName.toNat]
      · simp [epochReached_some, epochReached_none, h, ForkName.toNat]
  | some ce =>
    cases hsh : fc.shanghai_fork_epoch with
    | none =>
      by_cases h : ce ≤ e
      · simp [epochReached_some, epochReached_none, h, ForkName.toNat]
      · simp [epochReached_some, epochReached_none, h, ForkName.toNat]
    | some se =>
      by_cases hc : ce ≤ e <;> by_cases hs : se ≤ e <;>
        simp [epochReached_some, hc, hs, ForkName.toNat]

theorem t2v_none_of_lt (ts : Nat) (fc : ForkConfig) (h : ts < 1606824000) :
    timestamp_to_version ts fc = none := by
  unfold timestamp_to_version checked_sub
  rw [if_neg (by omega : ¬ 1606824000 ≤ ts)]
  rfl

theorem t2v_some_of_ge (ts : Nat) (fc : ForkConfig) (h : 1606824000 ≤ ts) :
    timestamp_to_version ts fc
      = some (fork_name_at_epoch ((ts - 1606824000) / 12 / 32) fc) := by
  simp [timestamp_to_version, checked_sub, checked_div, h]

theorem t2v_mono (fc : ForkConfig) (t1 t2 : Nat) (f1 f2 : ForkName) (hle : t1 ≤ t2)
    (h1 : timestamp_to_version t1 fc = some f1)
    (h2 : timestamp_to_version t2 fc = some f2) : f1.toNat ≤ f2.toNat := by
  by_cases hg1 : 1606824000 ≤ t1
  · have hg2 : 1606824000 ≤ t2 := le_trans hg1 hle
    rw [t2v_some_of_ge t1 fc hg1] at h1
    rw [t2v_some_of_ge t2 fc hg2] at h2
    rw [← Option.some.inj h1, ← Option.some.inj h2]
    refine fork_name_at_epoch_mono fc ?_
    exact Nat.div_le_div_right (Nat.div_le_div_right (Nat.sub_le_sub_right hle _))
  · rw [t2v_none_of_lt t1 fc (Nat.lt_of_not_le hg1)] at h1
    exact Option.noConfusion h1

/-- C9: the fork selector fails exactly on timestamps before the
genesis time 1606824000; on later timestamps it computes
`slot = (ts − 1606824000) / 12`, `epoch = slot / 32` and returns
`fork_name_at_epoch`, which equals the highest configured fork whose
activation epoch is at most that epoch; and for a fixed configuration
the selection is monotone in the timestamp under the order
Merge ≤ Shanghai ≤ Cancun. -/
theorem C9_fork_selector :
    (∀ (ts : Nat) (fc : ForkConfig), ts < 1606824000 →
      timestamp_to_version ts fc = none) ∧
    (∀ (ts : Nat) (fc : ForkConfig), 1606824000 ≤ ts →
      timestamp_to_version ts fc
        = some (fork_name_at_epoch ((ts - 1606824000) / 12 / 32) fc)) ∧
    (∀ (e : Nat) (fc : ForkConfig),
      fork_name_at_epoch e fc = highestConfiguredFork e fc) ∧
    (∀ (fc : ForkConfig) (t1 t2 : Nat) (f1 f2 : ForkName), t1 ≤ t2 →
      timestamp_to_version t1 fc = some f1 → timestamp_to_version t2 fc = some f2 →
      f1.toNat ≤ f2.toNat) :=
  ⟨t2v_none_of_lt, t2v_some_of_ge, fork_name_eq_highest, t2v_mono⟩

/-- C9 witness: on the mainnet configuration, a pre-genesis timestamp
fails, the genesis timestamp selects the epoch-0 fork, the selector
agrees with the spec-side highest-fork description at the Cancun
activation epoch, and the selection is monotone from a Merge-era
timestamp to a Cancun-era timestamp. -/
theorem C9_fork_selector_witness :
    timestamp_to_version 12 mainnetForkConfig = none ∧
    timestamp_to_version 1606824000 mainnetForkConfig
      = some (fork_name_at_epoch ((1606824000 - 1606824000) / 12 / 32)
          mainnetForkConfig) ∧
    fork_name_at_epoch 269568 mainnetForkConfig
      = highestConfiguredFork 269568 mainnetForkConfig ∧
    ForkName.Merge.toNat ≤ ForkName.Cancun.toNat :=
  ⟨C9_fork_selector.1 12 mainnetForkConfig (by decide),
   C9_fork_selector.2.1 1606824000 mainnetForkConfig (by decide),
   C9_fork_selector.2.2.1 269568 mainnetForkConfig,
   C9_fork_selector.2.2.2 mainnetForkConfig 1606824000 1710338112
     ForkName.Merge ForkName.Cancun (by decide) (by decide) (by decide)⟩

end ExecutionBackup
